import Mathlib

/-!
Shallow embedding of the booking-and-payment subsystem of the
alx_travel_app listings application.

The Django models (listings/models.py), serializers
(listings/serializers.py), view sets (listings/views.py) and the Celery
task (listings/tasks.py) are translated into pure Lean definitions:

- decimal fields are modelled as exact rationals (Rat); the max_digits
  bounds of DecimalField are not modelled;
- DateField values are modelled as integer day ordinals, so that the
  Python expression (end_date - start_date).days becomes plain integer
  subtraction;
- auto-managed columns (created_at, updated_at) are not modelled;
- the database is an explicit record of tables, and each endpoint is a
  function from state and request data to a result together with the
  next state;
- the external payment gateway is an input: the JSON body it returns is
  passed to the endpoint as data, with Option marking fields that a
  response may lack (a missing field that the Python code indexes with
  brackets raises KeyError, modelled as a server-error outcome).
-/

namespace AlxTravelApp

/-- Booking.STATUS_CHOICES in models.py: pending, confirmed, cancelled. -/
inductive BookingStatus where
  | pending
  | confirmed
  | cancelled
  deriving DecidableEq

/-- Payment.status choices in models.py: Pending, Completed, Failed. -/
inductive PaymentStatus where
  | Pending
  | Completed
  | Failed
  deriving DecidableEq

/-- Listing model (models.py): a property listing hosted by a user.
Users are identified by numeric ids; amenities is a JSON list of strings. -/
structure Listing where
  id : Nat
  host : Nat
  title : String
  description : String
  location : String
  price_per_night : Rat
  max_guests : Nat
  amenities : List String
  available : Bool
  deriving DecidableEq

/-- Booking model (models.py): a reservation of a listing by a guest.
Dates are integer day ordinals. The CheckConstraint valid_booking_dates
(end_date > start_date) is enforced by the insert operation below. -/
structure Booking where
  id : Nat
  listing : Nat
  guest : Nat
  start_date : Int
  end_date : Int
  total_price : Rat
  status : BookingStatus
  deriving DecidableEq

/-- Review model (models.py): a rating and comment left by a user for a
listing, with unique_together (listing, user) and the CheckConstraint
valid_rating_range (1 <= rating <= 5) enforced by the insert operation. -/
structure Review where
  id : Nat
  listing : Nat
  user : Nat
  rating : Nat
  comment : String
  deriving DecidableEq

/-- Payment model (models.py): booking_reference is a plain string (not a
foreign key), transaction_id is nullable. -/
structure Payment where
  id : Nat
  booking_reference : String
  transaction_id : Option String
  amount : Rat
  status : PaymentStatus
  deriving DecidableEq

/-- The persistent state: the four tables, auto-increment counters for
their primary keys, and the Celery task queue, recorded as the list of
(user_email, listing_title) payloads enqueued so far. -/
structure DB where
  listings : List Listing
  bookings : List Booking
  reviews : List Review
  payments : List Payment
  nextBookingId : Nat
  nextReviewId : Nat
  nextPaymentId : Nat
  taskQueue : List (String × String)
  deriving DecidableEq

/-- How an endpoint failure surfaces to the HTTP caller: a DRF serializer
validation failure is returned as HTTP 400, while a database
IntegrityError (check constraint, NOT NULL or unique violation) escapes
the view unhandled and surfaces as HTTP 500. -/
inductive ApiError where
  | validationError
  | integrityError
  deriving DecidableEq

/-- HTTP status code each error kind surfaces as. -/
def ApiError.httpStatus : ApiError → Nat
  | .validationError => 400
  | .integrityError => 500

/-- The Celery task in tasks.py: builds the confirmation mail and returns
the literal success string. Modelled as the pure value it sends: subject,
message, from_email (None) and recipient list, paired with the return
value. -/
def send_booking_confirmation_email (user_email listing_title : String) :
    (String × String × Option String × List String) × String :=
  (("Booking Confirmation",
    "Your booking for " ++ listing_title ++ " has been confirmed!",
    none,
    [user_email]),
   "Email sent successfully")

/-- The write-side fields of BookingSerializer (serializers.py): listing_id
(a PrimaryKeyRelatedField over all listings), start_date, end_date,
total_price and status are all writable; status is optional and defaults
to the model default pending. guest is read-only and supplied by the view
as the authenticated user. -/
structure BookingRequest where
  listing_id : Nat
  start_date : Int
  end_date : Int
  total_price : Rat
  status : Option BookingStatus
  deriving DecidableEq

/-- POST /bookings (BookingViewSet.perform_create + BookingSerializer):
serializer validation checks that listing_id refers to an existing
listing and that total_price satisfies MinValueValidator(0.00); then
serializer.save(guest=request.user) inserts the row, where the database
CheckConstraint valid_booking_dates rejects end_date <= start_date. The
persisted total_price and status come from the request; nothing is
computed from the listing price or the dates, and no task is enqueued. -/
def createBooking (db : DB) (guest : Nat) (req : BookingRequest) :
    Except ApiError Booking × DB :=
  if (db.listings.find? (fun l => l.id == req.listing_id)).isNone then
    (.error .validationError, db)
  else if req.total_price < 0 then
    (.error .validationError, db)
  else if req.end_date ≤ req.start_date then
    (.error .integrityError, db)
  else
    let b : Booking :=
      { id := db.nextBookingId
        listing := req.listing_id
        guest := guest
        start_date := req.start_date
        end_date := req.end_date
        total_price := req.total_price
        status := req.status.getD .pending }
    (.ok b, { db with
                bookings := db.bookings ++ [b]
                nextBookingId := db.nextBookingId + 1 })

/-- The write-side fields of ReviewSerializer (serializers.py): only
rating and comment are writable — the serializer declares no listing
field at all, and user is read-only (set by the view). -/
structure ReviewRequest where
  rating : Nat
  comment : String
  deriving DecidableEq

/-- Insertion of a Review row at the database layer (Review.objects.create
with the Meta constraints of models.py): NOT NULL on the listing foreign
key, the foreign key must reference an existing listing, the
CheckConstraint valid_rating_range (1 <= rating <= 5), and the
unique_together (listing, user) constraint. Any violation raises
IntegrityError and persists nothing. -/
def dbInsertReview (db : DB) (listing : Option Nat) (user : Nat)
    (rating : Nat) (comment : String) : Except ApiError Review × DB :=
  match listing with
  | none => (.error .integrityError, db)
  | some lid =>
    if (db.listings.find? (fun l => l.id == lid)).isNone then
      (.error .integrityError, db)
    else if ¬ (1 ≤ rating ∧ rating ≤ 5) then
      (.error .integrityError, db)
    else if db.reviews.any (fun r => r.listing == lid && r.user == user) then
      (.error .integrityError, db)
    else
      let r : Review :=
        { id := db.nextReviewId
          listing := lid
          user := user
          rating := rating
          comment := comment }
      (.ok r, { db with
                  reviews := db.reviews ++ [r]
                  nextReviewId := db.nextReviewId + 1 })

/-- POST /reviews (ReviewViewSet.perform_create + ReviewSerializer): the
serializer validates rating against the model validators
MinValueValidator(1) / MaxValueValidator(5); then
serializer.save(user=request.user) inserts a Review whose listing was
never supplied — ReviewSerializer exposes no listing field — so the
insert always hits the NOT NULL constraint on listing. -/
def createReview (db : DB) (user : Nat) (req : ReviewRequest) :
    Except ApiError Review × DB :=
  if ¬ (1 ≤ req.rating ∧ req.rating ≤ 5) then
    (.error .validationError, db)
  else
    dbInsertReview db none user req.rating req.comment

/-- The ratings of all reviews attached to a listing, in table order. -/
def listingRatings (db : DB) (listingId : Nat) : List Nat :=
  (db.reviews.filter (fun r => r.listing == listingId)).map (fun r => r.rating)

/-- Django Avg aggregate: None over an empty set of rows, otherwise the
arithmetic mean of the values. -/
def dbAvg (l : List Nat) : Option Rat :=
  if l.isEmpty then none
  else some ((l.map (fun n => (n : Rat))).sum / l.length)

/-- The Python idiom x or 0.0: None and 0.0 are falsy, so both map to
0.0; any other float is returned unchanged. -/
def pyOrZero (o : Option Rat) : Rat :=
  match o with
  | none => 0
  | some v => if v = 0 then 0 else v

/-- ListingSerializer.get_average_rating (serializers.py):
obj.reviews.aggregate(avg=Avg(rating)).get(avg) or 0.0 — recomputed from
the current reviews table on every call. -/
def get_average_rating (db : DB) (listingId : Nat) : Rat :=
  pyOrZero (dbAvg (listingRatings db listingId))

/-- The data object inside the gateway's initialize response JSON;
Option marks fields the response body may lack. -/
structure InitData where
  tx_ref : Option String
  checkout_url : Option String
  deriving DecidableEq

/-- The gateway's initialize response JSON: resp_json.get("status") and
resp_json["data"], each possibly absent. -/
structure InitResponse where
  status : Option String
  data : Option InitData
  deriving DecidableEq

/-- Outcome of PaymentViewSet.initiate as seen by the HTTP caller. -/
inductive InitiateResult where
  | checkout (url : String)
  | initiationFailed
  | serverError
  deriving DecidableEq

/-- POST /payments/initiate (PaymentViewSet.initiate, views.py): sends
booking_reference as tx_ref to the gateway; if the response status is
"success" it reads resp_json["data"]["tx_ref"] (KeyError when absent,
before any row exists), creates a Pending Payment with the gateway-echoed
tx_ref as transaction_id (the amount check constraint raising
IntegrityError on a negative amount), and only then reads
resp_json["data"]["checkout_url"] — a KeyError there escapes after the
row was already persisted. Any other status returns the 400 error body
and persists nothing. -/
def initiate (db : DB) (booking_ref : String) (amount : Rat)
    (resp : InitResponse) : InitiateResult × DB :=
  if resp.status = some "success" then
    match resp.data with
    | none => (.serverError, db)
    | some d =>
      match d.tx_ref with
      | none => (.serverError, db)
      | some txid =>
        if amount < 0 then (.serverError, db)
        else
          let p : Payment :=
            { id := db.nextPaymentId
              booking_reference := booking_ref
              transaction_id := some txid
              amount := amount
              status := .Pending }
          let db' : DB :=
            { db with
                payments := db.payments ++ [p]
                nextPaymentId := db.nextPaymentId + 1 }
          match d.checkout_url with
          | none => (.serverError, db')
          | some url => (.checkout url, db')
  else (.initiationFailed, db)

/-- The gateway's verify response JSON: resp_json.get("status"). -/
structure VerifyResponse where
  status : Option String
  deriving DecidableEq

/-- Outcome of PaymentViewSet.verify as seen by the HTTP caller. -/
inductive VerifyResult where
  | paymentSuccessful
  | paymentFailed
  | transactionNotFound
  | serverError
  deriving DecidableEq

/-- payment.status = st; payment.save() for the row with primary key
pid. -/
def setPaymentStatus (db : DB) (pid : Nat) (st : PaymentStatus) : DB :=
  { db with
      payments := db.payments.map
        (fun q => if q.id == pid then { q with status := st } else q) }

/-- GET /payments/verify (PaymentViewSet.verify, views.py): looks up the
Payment with Payment.objects.get(transaction_id=tx_ref) — DoesNotExist
becomes the 404 body, MultipleObjectsReturned is swallowed by the broad
except clause as a 500 — then unconditionally overwrites the payment's
status from the gateway response: Completed when the gateway says
"success", Failed otherwise, with no look at the prior status. -/
def verify (db : DB) (tx_ref : String) (resp : VerifyResponse) :
    VerifyResult × DB :=
  match db.payments.filter (fun p => p.transaction_id == some tx_ref) with
  | [] => (.transactionNotFound, db)
  | [p] =>
    if resp.status = some "success" then
      (.paymentSuccessful, setPaymentStatus db p.id .Completed)
    else
      (.paymentFailed, setPaymentStatus db p.id .Failed)
  | _ => (.serverError, db)

/-- One state-mutating API call, for reasoning about arbitrary operation
sequences. -/
inductive Op where
  | bookingOp (guest : Nat) (req : BookingRequest)
  | reviewOp (user : Nat) (req : ReviewRequest)
  | initiateOp (booking_ref : String) (amount : Rat) (resp : InitResponse)
  | verifyOp (tx_ref : String) (resp : VerifyResponse)

/-- The state after one API call, discarding the HTTP response. -/
def applyOp (db : DB) : Op → DB
  | .bookingOp g req => (createBooking db g req).2
  | .reviewOp u req => (createReview db u req).2
  | .initiateOp r a resp => (initiate db r a resp).2
  | .verifyOp t resp => (verify db t resp).2

/-- The state after a sequence of API calls. -/
def runOps (db : DB) (ops : List Op) : DB :=
  ops.foldl applyOp db

/-- The booking-dates invariant of the valid_booking_dates constraint:
every persisted booking has end_date strictly after start_date. -/
def DB.datesOk (db : DB) : Prop :=
  ∀ b ∈ db.bookings, b.start_date < b.end_date

instance (db : DB) : Decidable db.datesOk := by
  unfold DB.datesOk; infer_instance

/-! Concrete fixtures for witnesses and counterexamples. -/

/-- A listing priced at 50 per night, hosted by user 2. -/
def listing1 : Listing :=
  { id := 1
    host := 2
    title := "Cozy Loft"
    description := "A loft"
    location := "Accra"
    price_per_night := 50
    max_guests := 2
    amenities := ["WiFi"]
    available := true }

/-- A state holding just listing1 and empty other tables. -/
def db0 : DB :=
  { listings := [listing1]
    bookings := []
    reviews := []
    payments := []
    nextBookingId := 0
    nextReviewId := 0
    nextPaymentId := 0
    taskQueue := [] }

/-- db0 with one rating-4 review for listing 1 by user 3. -/
def dbR : DB :=
  { db0 with
      reviews := [{ id := 0, listing := 1, user := 3, rating := 4, comment := "ok" }]
      nextReviewId := 1 }

/-- A Payment already in the terminal Completed state. -/
def paymentCompleted : Payment :=
  { id := 0
    booking_reference := "abc123"
    transaction_id := some "abc123"
    amount := 100
    status := .Completed }

/-- db0 with the single Completed payment. -/
def dbPaid : DB :=
  { db0 with payments := [paymentCompleted], nextPaymentId := 1 }

/-- A booking request quoting 999 for a 3-night stay at 50 per night. -/
def reqOverpriced : BookingRequest :=
  { listing_id := 1
    start_date := 0
    end_date := 3
    total_price := 999
    status := none }

/-- The booking persisted for reqOverpriced by guest 7 on db0. -/
def booking999 : Booking :=
  { id := 0
    listing := 1
    guest := 7
    start_date := 0
    end_date := 3
    total_price := 999
    status := .pending }

/-- A well-formed booking request with the correct price and confirmed
status supplied by the caller. -/
def reqGood : BookingRequest :=
  { listing_id := 1
    start_date := 0
    end_date := 3
    total_price := 150
    status := some .confirmed }

/-- A booking request whose end_date precedes its start_date. -/
def reqBadDates : BookingRequest :=
  { listing_id := 1
    start_date := 5
    end_date := 3
    total_price := 100
    status := none }

/-- A gateway initialize response with success status, an echoed tx_ref,
but no checkout_url field. -/
def respNoUrl : InitResponse :=
  { status := some "success"
    data := some { tx_ref := some "abc123", checkout_url := none } }

/-- A gateway initialize response with a non-success status. -/
def respFail : InitResponse :=
  { status := some "failed", data := none }

/-- A gateway initialize response echoing a tx_ref different from the
request's booking_reference. -/
def respEchoOther : InitResponse :=
  { status := some "success"
    data := some { tx_ref := some "zzz", checkout_url := some "https://pay/x" } }

/-! Helper lemmas shared between claims. -/

/-- The or-with-0.0 idiom is the identity on present values: when the mean
happens to be the falsy 0.0, the branch returns 0.0, the same value. -/
theorem pyOrZero_some (v : Rat) : pyOrZero (some v) = v := by
  by_cases h : v = 0 <;> simp [pyOrZero, h]

/-- The review endpoint always returns the state unchanged: the missing
listing field makes every insert fail before anything is persisted. -/
theorem createReview_state_id (db : DB) (u : Nat) (req : ReviewRequest) :
    (createReview db u req).2 = db := by
  unfold createReview dbInsertReview
  by_cases h : 1 ≤ req.rating ∧ req.rating ≤ 5 <;> simp [h]

/-- initiate never touches the bookings table. -/
theorem initiate_bookings_id (db : DB) (ref : String) (amt : Rat)
    (resp : InitResponse) :
    (initiate db ref amt resp).2.bookings = db.bookings := by
  unfold initiate
  repeat' split
  all_goals rfl

/-- verify never touches the bookings table. -/
theorem verify_bookings_id (db : DB) (tx : String) (resp : VerifyResponse) :
    (verify db tx resp).2.bookings = db.bookings := by
  unfold verify
  repeat' split
  all_goals rfl

/-- Booking creation preserves the dates invariant: the appended row has
just passed the valid_booking_dates constraint. -/
theorem createBooking_datesOk (db : DB) (g : Nat) (req : BookingRequest)
    (h : db.datesOk) : ((createBooking db g req).2).datesOk := by
  unfold createBooking
  split
  · exact h
  · split
    · exact h
    · split
      · exact h
      · next hdates =>
        intro b hb
        rcases List.mem_append.1 hb with hb | hb
        · exact h b hb
        · rcases List.mem_singleton.1 hb with rfl
          simpa using Int.not_le.mp hdates

/-- Every modelled operation preserves the dates invariant. -/
theorem applyOp_datesOk (db : DB) (op : Op) (h : db.datesOk) :
    (applyOp db op).datesOk := by
  cases op with
  | bookingOp g req => exact createBooking_datesOk db g req h
  | reviewOp u req =>
    show ((createReview db u req).2).datesOk
    rw [createReview_state_id]
    exact h
  | initiateOp r a resp =>
    show ((initiate db r a resp).2).datesOk
    intro b hb
    rw [initiate_bookings_id] at hb
    exact h b hb
  | verifyOp t resp =>
    show ((verify db t resp).2).datesOk
    intro b hb
    rw [verify_bookings_id] at hb
    exact h b hb

/-- Any sequence of modelled operations preserves the dates invariant. -/
theorem runOps_datesOk (db : DB) (ops : List Op) (h : db.datesOk) :
    (runOps db ops).datesOk := by
  induction ops generalizing db with
  | nil => exact h
  | cons op ops ih =>
    show (runOps (applyOp db op) ops).datesOk
    exact ih (applyOp db op) (applyOp_datesOk db op h)

/-! Claims. -/

/-- Claim C6: get_average_rating returns 0.0 for a listing with no reviews
and otherwise the arithmetic mean of all its current ratings; it is a total
pure function of the state (never fails, never returns null), and because
every call reads the current reviews table, a review added between two
calls is reflected in the second. -/
theorem get_average_rating_spec (db : DB) (lid : Nat) :
    (listingRatings db lid = [] → get_average_rating db lid = 0) ∧
    (listingRatings db lid ≠ [] →
      get_average_rating db lid =
        ((listingRatings db lid).map (fun n => (n : Rat))).sum /
          (listingRatings db lid).length) := by
  constructor
  · intro h
    simp [get_average_rating, dbAvg, h, pyOrZero]
  · intro h
    rw [get_average_rating, dbAvg, if_neg (by simpa [List.isEmpty_iff] using h),
      pyOrZero_some]

/-- Witness for C6 at concrete states: db0 has no reviews for listing 1 and
yields 0; dbR has the single rating 4 and yields 4. -/
theorem get_average_rating_spec_witness :
    get_average_rating db0 1 = 0 ∧ get_average_rating dbR 1 = 4 := by
  constructor
  · exact (get_average_rating_spec db0 1).1 (by decide)
  · rw [(get_average_rating_spec dbR 1).2 (by decide)]
    norm_num [listingRatings, dbR, db0]

/-- Claim C8: verify called with a transaction_id carried by no Payment
record returns the TransactionNotFound outcome (the 404 body) and leaves
the state — in particular every Payment record — unchanged. -/
theorem verify_unknown_transaction (db : DB) (tx : String)
    (resp : VerifyResponse) (h : ∀ p ∈ db.payments, p.transaction_id ≠ some tx) :
    verify db tx resp = (.transactionNotFound, db) := by
  have hf : db.payments.filter (fun p => p.transaction_id == some tx) = [] := by
    rw [List.filter_eq_nil_iff]
    intro p hp
    simpa using h p hp
  unfold verify
  rw [hf]

/-- Witness for C8: db0 holds no payments at all, so any tx_ref is
unknown. -/
theorem verify_unknown_transaction_witness :
    verify db0 "abc123" ⟨some "success"⟩ = (.transactionNotFound, db0) :=
  verify_unknown_transaction db0 "abc123" ⟨some "success"⟩ (by decide)

/-- Claim C1 counterexample: verify on a Payment already in the terminal
Completed state, with the gateway now reporting a non-success status,
overwrites the terminal status — the single payment moves from Completed
to Failed. -/
theorem verify_overwrites_completed_cex :
    dbPaid.payments.map Payment.status = [.Completed] ∧
    ((verify dbPaid "abc123" ⟨some "failed"⟩).2.payments.map Payment.status
      = [.Failed]) := by
  decide

/-- Claim C1 amended: verify rewrites the uniquely-matched Payment's status
from the gateway response alone — Completed when the gateway reports
"success", Failed otherwise — regardless of the prior status: Pending moves
to Completed or Failed, a repeated verify with the same gateway outcome
rewrites the same terminal status, and an already-terminal status flips
whenever a later gateway outcome differs. -/
theorem verify_status_from_gateway (db : DB) (tx : String)
    (resp : VerifyResponse) (p : Payment)
    (h : db.payments.filter (fun q => q.transaction_id == some tx) = [p]) :
    verify db tx resp =
      (if resp.status = some "success" then VerifyResult.paymentSuccessful
       else VerifyResult.paymentFailed,
       setPaymentStatus db p.id
         (if resp.status = some "success" then PaymentStatus.Completed
          else PaymentStatus.Failed)) := by
  unfold verify
  rw [h]
  by_cases hs : resp.status = some "success" <;> simp [hs]

/-- Witness for the amended C1 at a concrete state: the Completed payment of
dbPaid, reverified against a gateway reporting "failed", is rewritten to
Failed. -/
theorem verify_status_from_gateway_witness :
    verify dbPaid "abc123" ⟨some "failed"⟩ =
      (if (some "failed" : Option String) = some "success"
         then VerifyResult.paymentSuccessful else VerifyResult.paymentFailed,
       setPaymentStatus dbPaid paymentCompleted.id
         (if (some "failed" : Option String) = some "success"
            then PaymentStatus.Completed else PaymentStatus.Failed)) :=
  verify_status_from_gateway dbPaid "abc123" ⟨some "failed"⟩ paymentCompleted
    (by decide)

/-- Claim C2 counterexample: booking listing 1 (price_per_night 50) for the
3 nights from day 0 to day 3 with a caller-supplied total_price of 999
succeeds and persists 999, not 50 x 3 = 150 — the endpoint never computes
the price from the listing and the dates. -/
theorem total_price_not_recomputed_cex :
    (createBooking db0 7 reqOverpriced).1 = Except.ok booking999 ∧
    booking999.total_price ≠
      listing1.price_per_night *
        ((reqOverpriced.end_date - reqOverpriced.start_date : Int) : Rat) := by
  refine ⟨rfl, ?_⟩
  norm_num [booking999, listing1, reqOverpriced]

/-- Claim C2 amended: the persisted total_price is exactly the value the
caller supplied in the request (validated only to be non-negative); booking
creation performs no computation from price_per_night and the dates. -/
theorem total_price_caller_supplied (db : DB) (g : Nat) (req : BookingRequest)
    (b : Booking) (h : (createBooking db g req).1 = Except.ok b) :
    b.total_price = req.total_price := by
  unfold createBooking at h
  split at h
  · simp at h
  · split at h
    · simp at h
    · split at h
      · simp at h
      · simp only [] at h
        injection h with h2
        rw [← h2]

/-- Witness for the amended C2: the booking persisted for reqOverpriced
carries the request's 999. -/
theorem total_price_caller_supplied_witness :
    booking999.total_price = reqOverpriced.total_price :=
  total_price_caller_supplied db0 7 reqOverpriced booking999 (by rfl)

/-- Claim C3 counterexample: a successful booking creation that omits the
optional status field persists status pending, not confirmed. -/
theorem booking_status_not_confirmed_cex :
    (createBooking db0 7 reqOverpriced).1 = Except.ok booking999 ∧
    booking999.status ≠ BookingStatus.confirmed := by
  exact ⟨rfl, by decide⟩

/-- Claim C3 amended: the persisted status is whatever the caller supplied
in the request, defaulting to the model default pending when the field is
absent; the endpoint never forces confirmed. -/
theorem booking_status_from_request (db : DB) (g : Nat) (req : BookingRequest)
    (b : Booking) (h : (createBooking db g req).1 = Except.ok b) :
    b.status = req.status.getD BookingStatus.pending := by
  unfold createBooking at h
  split at h
  · simp at h
  · split at h
    · simp at h
    · split at h
      · simp at h
      · simp only [] at h
        injection h with h2
        rw [← h2]

/-- Witness for the amended C3: reqOverpriced omits status, and the
persisted booking has status pending. -/
theorem booking_status_from_request_witness :
    booking999.status = reqOverpriced.status.getD BookingStatus.pending :=
  booking_status_from_request db0 7 reqOverpriced booking999 (by rfl)

/-- Claim C4 counterexample: with a review for (listing 1, user 3) already
present, user 3 submitting a fresh rating-5 review does not succeed and
does not overwrite — the call fails with an IntegrityError and the state,
including the old rating-4 review, is unchanged. -/
theorem review_submission_fails_cex :
    createReview dbR 3 { rating := 5, comment := "great" } =
      (Except.error ApiError.integrityError, dbR) ∧
    dbR.reviews.map Review.rating = [4] := by
  exact ⟨rfl, rfl⟩

/-- Claim C4 amended: submitting a review through the review endpoint never
succeeds and never persists or overwrites anything: the serializer exposes
no listing field, so the insert always violates the NOT NULL constraint on
listing — an IntegrityError when the rating passes the 1..5 validators, a
validation error otherwise — and the state is returned unchanged. -/
theorem review_submission_always_errors (db : DB) (u : Nat)
    (req : ReviewRequest) :
    createReview db u req =
      (Except.error (if 1 ≤ req.rating ∧ req.rating ≤ 5
                       then ApiError.integrityError
                       else ApiError.validationError), db) := by
  unfold createReview dbInsertReview
  by_cases h : 1 ≤ req.rating ∧ req.rating ≤ 5 <;> simp [h]

/-- Claim C5 counterexample: a successful booking creation enqueues zero
Notification Dispatcher tasks — starting from db0, whose queue is empty,
the booking is persisted but the queue is still empty. -/
theorem booking_enqueues_no_task_cex :
    (createBooking db0 7 reqGood).1 =
      Except.ok { id := 0, listing := 1, guest := 7, start_date := 0,
                  end_date := 3, total_price := 150,
                  status := BookingStatus.confirmed } ∧
    (createBooking db0 7 reqGood).2.taskQueue = [] ∧
    db0.taskQueue = [] := by
  exact ⟨rfl, rfl, rfl⟩

/-- Claim C5 amended: booking creation never touches the task queue — the
Celery task send_booking_confirmation_email exists but is never enqueued
by the endpoint — so no notification is dispatched, and symmetrically the
outcome of booking creation never depends on the queue. -/
theorem createBooking_taskQueue_unchanged (db : DB) (g : Nat)
    (req : BookingRequest) :
    (createBooking db g req).2.taskQueue = db.taskQueue := by
  unfold createBooking
  split
  · rfl
  · split
    · rfl
    · split
      · rfl
      · rfl

/-- Claim C7 counterexample: a malformed gateway response with status
"success" that carries data.tx_ref but lacks data.checkout_url persists
one Pending Payment row and only then fails with a server error — not zero
rows. -/
theorem initiate_malformed_persists_cex :
    (initiate db0 "abc123" 100 respNoUrl).1 = InitiateResult.serverError ∧
    (initiate db0 "abc123" 100 respNoUrl).2.payments.map Payment.status
      = [PaymentStatus.Pending] := by
  exact ⟨rfl, rfl⟩

/-- Claim C7 amended: on any gateway response whose status field is not
"success", initiate returns the 400 error body and persists nothing; a
Payment row can only ever appear for a response whose status is "success"
— but a malformed success response lacking data.checkout_url persists its
Pending row and then surfaces a server error instead of returning the
checkout URL. -/
theorem initiate_persists_only_on_success (db : DB) (ref : String)
    (amt : Rat) (resp : InitResponse) :
    (resp.status ≠ some "success" →
      initiate db ref amt resp = (InitiateResult.initiationFailed, db)) ∧
    ((initiate db ref amt resp).2.payments ≠ db.payments →
      resp.status = some "success") := by
  constructor
  · intro h
    unfold initiate
    rw [if_neg h]
  · intro h
    by_contra hs
    apply h
    unfold initiate
    rw [if_neg hs]

/-- Witness for the amended C7: a "failed" status yields the 400 outcome on
db0 with nothing persisted. -/
theorem initiate_persists_only_on_success_witness :
    initiate db0 "abc123" 100 respFail =
      (InitiateResult.initiationFailed, db0) :=
  (initiate_persists_only_on_success db0 "abc123" 100 respFail).1 (by decide)

/-- Claim C9 counterexample: creating a booking with end_date before
start_date is stopped by the database CheckConstraint, surfacing as an
IntegrityError (HTTP 500) — not as a 4xx InvalidDateRange validation
error. -/
theorem invalid_dates_error_kind_cex :
    createBooking db0 7 reqBadDates =
      (Except.error ApiError.integrityError, db0) ∧
    ApiError.integrityError.httpStatus = 500 ∧
    ApiError.integrityError ≠ ApiError.validationError := by
  exact ⟨rfl, rfl, by decide⟩

/-- Claim C9 amended: from any state satisfying it, the invariant
end_date > start_date holds of every booking after any sequence of
modelled operations, and a creation attempt with end_date <= start_date
always fails and persists no Booking — but via the database integrity
constraint (a 500 server error) when it reaches the insert, not an
InvalidDateRange validation error. -/
theorem booking_dates_invariant (db : DB) (ops : List Op) (h : db.datesOk) :
    (runOps db ops).datesOk ∧
    ∀ g req, req.end_date ≤ req.start_date →
      ((createBooking db g req).1 = Except.error ApiError.validationError ∨
       (createBooking db g req).1 = Except.error ApiError.integrityError) ∧
      (createBooking db g req).2 = db := by
  refine ⟨runOps_datesOk db ops h, ?_⟩
  intro g req hd
  unfold createBooking
  by_cases h1 : (db.listings.find? (fun l => l.id == req.listing_id)).isNone = true
  · rw [if_pos h1]
    exact ⟨Or.inl rfl, rfl⟩
  · rw [if_neg h1]
    by_cases h2 : req.total_price < 0
    · rw [if_pos h2]
      exact ⟨Or.inl rfl, rfl⟩
    · rw [if_neg h2, if_pos hd]
      exact ⟨Or.inr rfl, rfl⟩

/-- Witness for the amended C9: one successful creation on db0 keeps the
invariant, and the reversed-dates request leaves db0 unchanged. -/
theorem booking_dates_invariant_witness :
    (runOps db0 [Op.bookingOp 7 reqGood]).datesOk ∧
    (createBooking db0 7 reqBadDates).2 = db0 := by
  have h := booking_dates_invariant db0 [Op.bookingOp 7 reqGood] (by decide)
  exact ⟨h.1, (h.2 7 reqBadDates (by decide)).2⟩

/-- Claim C10 counterexample: when the gateway echoes a tx_ref different
from the request's booking_reference, the persisted Payment stores the
gateway's value as transaction_id, so the two string fields differ. -/
theorem transaction_id_differs_cex :
    (initiate db0 "abc123" 100 respEchoOther).2.payments.map
        (fun p => (p.booking_reference, p.transaction_id))
      = [("abc123", some "zzz")] ∧
    (some "zzz" : Option String) ≠ some "abc123" := by
  exact ⟨rfl, by decide⟩

/-- Claim C10 amended: the Payment persisted by a successful initiate
stores the caller's booking_reference verbatim and, as transaction_id, the
tx_ref field of the gateway response data — so the two fields coincide
exactly when the gateway echoes the request's tx_ref back unchanged, and
differ whenever it does not. -/
theorem initiate_transaction_id_from_gateway (db : DB) (ref : String)
    (amt : Rat) (cu : Option String) (txid : String) (ha : ¬ amt < 0) :
    (initiate db ref amt ⟨some "success", some ⟨some txid, cu⟩⟩).2.payments =
      db.payments ++
        [{ id := db.nextPaymentId
           booking_reference := ref
           transaction_id := some txid
           amount := amt
           status := PaymentStatus.Pending }] := by
  unfold initiate
  cases cu <;> simp [ha]

/-- Witness for the amended C10 at the §8 scenario amounts, with a gateway
echoing a different tx_ref. -/
theorem initiate_transaction_id_from_gateway_witness :
    (initiate db0 "abc123" 100
        ⟨some "success", some ⟨some "zzz", some "https://pay/x"⟩⟩).2.payments =
      db0.payments ++
        [{ id := 0
           booking_reference := "abc123"
           transaction_id := some "zzz"
           amount := 100
           status := PaymentStatus.Pending }] :=
  initiate_transaction_id_from_gateway db0 "abc123" 100
    (some "https://pay/x") "zzz" (by norm_num)

end AlxTravelApp
